import Mathlib

/-!
Shallow embedding of the DMODEL binary decoder from `driver_dmodel.py`:
header field extraction (`_decode_header`), vertex-array decoding
(`_read_vertices`), and the polygon-command interpreter
(`_parse_poly_commands`), together with theorems settling the
specification's claims about them.

Modelling conventions:
  - A file is `Bytes := List Nat`, one entry per byte.
  - Python exceptions become `Except DecodeErr`: the three explicit
    `ValueError` raises of the source map to `truncatedHeader`,
    `commandBufferOverrun` and `unknownOpcode`; an out-of-range `data[i]`
    access maps to `indexError i`; a failing `struct.unpack_from` maps to
    `structError offset size`.
  - 32-bit floats are modelled exactly over `ℚ`: an IEEE-754 binary32 bit
    pattern denotes an exact rational (subnormals included; the all-ones
    exponent, Inf/NaN, is mapped by extending the normal-number formula —
    no claim touches those patterns, and both sides of every theorem use
    the same denotation).
-/

abbrev Bytes := List Nat

/-- Failure modes of the decoder.  The first three correspond to the
explicit `raise ValueError` sites of `driver_dmodel.py`; `indexError` and
`structError` model the implicit `IndexError` of `data[i]` and the implicit
`struct.error` of an out-of-bounds `struct.unpack_from`. -/
inductive DecodeErr : Type where
  | truncatedHeader : DecodeErr
  | commandBufferOverrun : Nat → Nat → DecodeErr
  | unknownOpcode : Nat → Nat → DecodeErr
  | indexError : Nat → DecodeErr
  | structError : Nat → Nat → DecodeErr
deriving DecidableEq, Repr

/-- Python `data[i]` for a non-negative index: the byte at `i`, or an
`IndexError` when `i` is past the end. -/
def byteAt (data : Bytes) (i : Nat) : Except DecodeErr Nat :=
  if i < data.length then .ok (data.getD i 0) else .error (.indexError i)

/-- Little-endian 16-bit value at `off` (total helper; every caller first
establishes the bounds that `struct.unpack_from` checks). -/
def leU16 (data : Bytes) (off : Nat) : Nat :=
  data.getD off 0 + 256 * data.getD (off + 1) 0

/-- Little-endian 32-bit value at `off` (total helper). -/
def leU32 (data : Bytes) (off : Nat) : Nat :=
  data.getD off 0 + 256 * data.getD (off + 1) 0
    + 65536 * data.getD (off + 2) 0 + 16777216 * data.getD (off + 3) 0

/-- `_read_u16`: `struct.unpack_from("<H", data, off)[0]`, which demands
`off + 2 ≤ len(data)` and otherwise raises `struct.error`. -/
def read_u16 (data : Bytes) (off : Nat) : Except DecodeErr Nat :=
  if off + 2 ≤ data.length then .ok (leU16 data off) else .error (.structError off 2)

/-- `_read_u32`: `struct.unpack_from("<I", data, off)[0]`. -/
def read_u32 (data : Bytes) (off : Nat) : Except DecodeErr Nat :=
  if off + 4 ≤ data.length then .ok (leU32 data off) else .error (.structError off 4)

/-- The header record returned by `_decode_header`. -/
structure Header : Type where
  vertex_count : Nat
  poly_cmd_count : Nat
  mesh_count : Nat
  vert_offset : Nat
  plane_offset : Nat
  normal_offset : Nat
  cmd_offset : Nat
deriving DecidableEq, Repr

/-- `_decode_header`: reject buffers shorter than `0x30` bytes, then read
the seven little-endian fields at their fixed offsets. -/
def decode_header (data : Bytes) : Except DecodeErr Header :=
  if data.length < 0x30 then .error .truncatedHeader
  else do
    let vertex_count ← read_u16 data 0x14
    let poly_cmd_count ← read_u16 data 0x16
    let mesh_count ← read_u16 data 0x1A
    let vert_offset ← read_u32 data 0x20
    let plane_offset ← read_u32 data 0x24
    let normal_offset ← read_u32 data 0x28
    let cmd_offset ← read_u32 data 0x2C
    return ⟨vertex_count, poly_cmd_count, mesh_count,
            vert_offset, plane_offset, normal_offset, cmd_offset⟩

/-- Exact rational value of an IEEE-754 binary32 bit pattern.  Exponent 0
is the subnormal range; the all-ones exponent (Inf/NaN in IEEE) is mapped
by extending the normal-number formula, since no finite DMODEL field uses
it and no claim depends on it. -/
def decodeF32 (bits : Nat) : ℚ :=
  let s : Nat := bits / 2 ^ 31 % 2
  let e : Nat := bits / 2 ^ 23 % 2 ^ 8
  let m : Nat := bits % 2 ^ 23
  let mag : ℚ :=
    if e = 0 then ((m : ℚ) / 2 ^ 23) * (2 / 2 ^ 127)
    else ((2 ^ 23 + (m : ℚ)) / 2 ^ 23) * (2 ^ e / 2 ^ 127)
  if s = 1 then -mag else mag

/-- The 32-bit float stored little-endian at `off`. -/
def f32At (data : Bytes) (off : Nat) : ℚ :=
  decodeF32 (leU32 data off)

/-- `struct.unpack_from("<fff", data, off)`: one bounds check for the whole
12-byte record, then the three floats. -/
def unpack_fff (data : Bytes) (off : Nat) : Except DecodeErr (ℚ × ℚ × ℚ) :=
  if off + 12 ≤ data.length then
    .ok (f32At data off, f32At data (off + 4), f32At data (off + 8))
  else .error (.structError off 12)

/-- Loop body of `_read_vertices`: remaining count, current loop index. -/
def readVerticesGo (data : Bytes) (base : Nat) : Nat → Nat → Except DecodeErr (List (ℚ × ℚ × ℚ))
  | 0, _ => .ok []
  | k + 1, i => do
    let xyz ← unpack_fff data (base + i * 12)
    let rest ← readVerticesGo data base k (i + 1)
    return (-xyz.1 / 10, -xyz.2.1 / 10, xyz.2.2 / 10) :: rest

/-- `_read_vertices`: for `i` in `range(vertex_count)` read the float3 at
`vert_offset + i*12` and append `(-x/10, -y/10, z/10)`. -/
def read_vertices (data : Bytes) (vert_offset vertex_count : Nat) :
    Except DecodeErr (List (ℚ × ℚ × ℚ)) :=
  readVerticesGo data vert_offset vertex_count 0

/-- The transformed vertex whose raw record sits at `off`. -/
def vertexAt (data : Bytes) (off : Nat) : ℚ × ℚ × ℚ :=
  (-(f32At data off) / 10, -(f32At data (off + 4)) / 10, f32At data (off + 8) / 10)

abbrev Tri := Nat × Nat × Nat
abbrev UV := ℚ × ℚ
abbrev PolyData := List Tri × List (List UV) × List Nat

/-- A UV byte read `data[off] / 256.0`. -/
def uvByte (data : Bytes) (off : Nat) : Except DecodeErr ℚ := do
  let b ← byteAt data off
  return (b : ℚ) / 256

/-- `struct.unpack_from("<HHH", data, off)`: one bounds check for six
bytes, then three little-endian u16 values. -/
def unpack_HHH (data : Bytes) (off : Nat) : Except DecodeErr (Nat × Nat × Nat) :=
  if off + 6 ≤ data.length then
    .ok (leU16 data off, leU16 data (off + 2), leU16 data (off + 4))
  else .error (.structError off 6)

/-- Loop body of `_parse_poly_commands`: arguments are the remaining
command count, the cursor `p`, and the current command index.  Mirrors the
source's `if p >= n` check, the eager `op = data[p]` / `mesh_id = data[p+1]`
reads, and the per-opcode `elif` chain. -/
def parsePolyGo (data : Bytes) : Nat → Nat → Nat → Except DecodeErr PolyData
  | 0, _, _ => .ok ([], [], [])
  | cnt + 1, p, idx =>
    if data.length ≤ p then .error (.commandBufferOverrun idx p)
    else do
      let mesh_id ← byteAt data (p + 1)
      if data.getD p 0 = 0x10 then do
        let ijk ← unpack_HHH data (p + 2)
        let rest ← parsePolyGo data cnt (p + 0x10) (idx + 1)
        return ((ijk.1, ijk.2.1, ijk.2.2) :: rest.1,
                ([(0, 0), (0, 0), (0, 0)] : List UV) :: rest.2.1,
                mesh_id :: rest.2.2)
      else if data.getD p 0 = 0x12 then do
        let a ← read_u16 data (p + 2)
        let b ← read_u16 data (p + 4)
        let c ← read_u16 data (p + 6)
        let rest ← parsePolyGo data cnt (p + 0x14) (idx + 1)
        return ((c, b, a) :: rest.1,
                ([(0, 0), (0, 0), (0, 0)] : List UV) :: rest.2.1,
                mesh_id :: rest.2.2)
      else if data.getD p 0 = 0x13 then
        parsePolyGo data cnt (p + 0x16) (idx + 1)
      else if data.getD p 0 = 0x14 then do
        let a ← read_u16 data (p + 2)
        let b ← read_u16 data (p + 4)
        let c ← read_u16 data (p + 6)
        let u2 ← uvByte data (p + 0x0A)
        let v2 ← uvByte data (p + 0x0B)
        let u1 ← uvByte data (p + 0x0C)
        let v1 ← uvByte data (p + 0x0D)
        let u0 ← uvByte data (p + 0x0E)
        let v0 ← uvByte data (p + 0x0F)
        let rest ← parsePolyGo data cnt (p + 0x14) (idx + 1)
        return ((c, b, a) :: rest.1,
                [(u0, v0), (u1, v1), (u2, v2)] :: rest.2.1,
                mesh_id :: rest.2.2)
      else if data.getD p 0 = 0x15 then do
        let a ← read_u16 data (p + 2)
        let b ← read_u16 data (p + 4)
        let c ← read_u16 data (p + 6)
        let d ← read_u16 data (p + 8)
        let uC ← uvByte data (p + 0x0C)
        let vC ← uvByte data (p + 0x0D)
        let uB ← uvByte data (p + 0x0E)
        let vB ← uvByte data (p + 0x0F)
        let uA ← uvByte data (p + 0x10)
        let vA ← uvByte data (p + 0x11)
        let uD ← uvByte data (p + 0x12)
        let vD ← uvByte data (p + 0x13)
        let rest ← parsePolyGo data cnt (p + 0x18) (idx + 1)
        return ((c, b, a) :: (d, c, a) :: rest.1,
                [(uA, vA), (uB, vB), (uC, vC)] :: [(uD, vD), (uA, vA), (uC, vC)] :: rest.2.1,
                mesh_id :: mesh_id :: rest.2.2)
      else if data.getD p 0 = 0x16 then do
        let a ← read_u16 data (p + 2)
        let b ← read_u16 data (p + 4)
        let c ← read_u16 data (p + 6)
        let u2 ← uvByte data (p + 0x0E)
        let v2 ← uvByte data (p + 0x0F)
        let u1 ← uvByte data (p + 0x10)
        let v1 ← uvByte data (p + 0x11)
        let u0 ← uvByte data (p + 0x12)
        let v0 ← uvByte data (p + 0x13)
        let rest ← parsePolyGo data cnt (p + 0x18) (idx + 1)
        return ((c, b, a) :: rest.1,
                [(u0, v0), (u1, v1), (u2, v2)] :: rest.2.1,
                mesh_id :: rest.2.2)
      else if data.getD p 0 = 0x17 then do
        let a ← read_u16 data (p + 2)
        let b ← read_u16 data (p + 4)
        let c ← read_u16 data (p + 6)
        let d ← read_u16 data (p + 8)
        let uC ← uvByte data (p + 0x14)
        let vC ← uvByte data (p + 0x15)
        let uB ← uvByte data (p + 0x16)
        let vB ← uvByte data (p + 0x17)
        let uA ← uvByte data (p + 0x18)
        let vA ← uvByte data (p + 0x19)
        let uD ← uvByte data (p + 0x1A)
        let vD ← uvByte data (p + 0x1B)
        let rest ← parsePolyGo data cnt (p + 0x20) (idx + 1)
        return ((c, b, a) :: (d, c, a) :: rest.1,
                [(uA, vA), (uB, vB), (uC, vC)] :: [(uD, vD), (uA, vA), (uC, vC)] :: rest.2.1,
                mesh_id :: mesh_id :: rest.2.2)
      else .error (.unknownOpcode (data.getD p 0) p)

/-- `_parse_poly_commands`: walk `poly_cmd_count` commands starting at
`cmd_offset`, command index starting at 0. -/
def parse_poly_commands (data : Bytes) (cmd_offset poly_cmd_count : Nat) :
    Except DecodeErr PolyData :=
  parsePolyGo data poly_cmd_count cmd_offset 0

/-- The full decode pipeline as invoked by the importer: header, then
vertices, then the polygon command stream. -/
def decode_dmodel (data : Bytes) : Except DecodeErr (Header × List (ℚ × ℚ × ℚ) × PolyData) := do
  let hdr ← decode_header data
  let verts ← read_vertices data hdr.vert_offset hdr.vertex_count
  let polys ← parse_poly_commands data hdr.cmd_offset hdr.poly_cmd_count
  return (hdr, verts, polys)

deriving instance DecidableEq for Except

/-! ## Concrete buffers used to exercise the theorems -/

/-- One `0x15` quad command with indices `a,b,c,d = 1,2,3,4`, `mesh_id = 7`,
and pairwise-distinct UV bytes `192..199` at offsets `0x0C..0x13`. -/
def demoQuadBuf : Bytes :=
  [0x15, 7, 1, 0, 2, 0, 3, 0, 4, 0, 0, 0, 192, 193, 194, 195, 196, 197, 198, 199]

/-- One `0x14` triangle command with indices `1,2,3`, `mesh_id = 5`, UV
bytes `128,64` at `0x0A/0x0B`, `0,0` at `0x0C/0x0D`, `255,255` at
`0x0E/0x0F` — the spec's worked example. -/
def demoTriBuf : Bytes :=
  [0x14, 5, 1, 0, 2, 0, 3, 0, 0, 0, 128, 64, 0, 0, 255, 255]

/-- One raw vertex record: the binary32 little-endian encodings of
`10.0`, `20.0`, `30.0`. -/
def demoVertexBuf : Bytes :=
  [0, 0, 32, 65, 0, 0, 160, 65, 0, 0, 240, 65]

/-- A complete file: header with `vertex_count = 1`, `poly_cmd_count = 1`,
`vert_offset = 0x30`, `cmd_offset = 0x3C`; one zero vertex record; one
`0x10` command whose indices `100, 200, 300` all exceed `vertex_count`. -/
def demoNoValidation : Bytes :=
  [0, 0, 0, 0, 0, 0, 0, 0, 0, 0, 0, 0, 0, 0, 0, 0, 0, 0, 0, 0,
   1, 0, 1, 0, 0, 0, 0, 0, 0, 0, 0, 0,
   0x30, 0, 0, 0, 0, 0, 0, 0, 0, 0, 0, 0, 0x3C, 0, 0, 0,
   0, 0, 0, 0, 0, 0, 0, 0, 0, 0, 0, 0,
   0x10, 9, 100, 0, 200, 0, 44, 1]

/-! ## Helper lemmas about the byte-level readers -/

theorem bind_eq_ok {α β : Type} {x : Except DecodeErr α} {f : α → Except DecodeErr β}
    {b : β} (h : x >>= f = .ok b) : ∃ a, x = .ok a ∧ f a = .ok b := by
  cases x with
  | error e => simp [Bind.bind, Except.bind] at h
  | ok a => exact ⟨a, rfl, h⟩

theorem read_u16_ok (data : Bytes) (off : Nat) (h : off + 2 ≤ data.length) :
    read_u16 data off = .ok (leU16 data off) := by
  simp [read_u16, h]

theorem read_u32_ok (data : Bytes) (off : Nat) (h : off + 4 ≤ data.length) :
    read_u32 data off = .ok (leU32 data off) := by
  simp [read_u32, h]

theorem byteAt_ok (data : Bytes) (off : Nat) (h : off < data.length) :
    byteAt data off = .ok (data.getD off 0) := by
  simp [byteAt, h]

theorem uvByte_ok (data : Bytes) (off : Nat) (h : off < data.length) :
    uvByte data off = .ok ((data.getD off 0 : ℚ) / 256) := by
  simp [uvByte, byteAt, h, Bind.bind, Except.bind, Pure.pure, Except.pure]

theorem unpack_HHH_ok (data : Bytes) (off : Nat) (h : off + 6 ≤ data.length) :
    unpack_HHH data off = .ok (leU16 data off, leU16 data (off + 2), leU16 data (off + 4)) := by
  simp [unpack_HHH, h]

theorem unpack_fff_ok (data : Bytes) (off : Nat) (h : off + 12 ≤ data.length) :
    unpack_fff data off = .ok (f32At data off, f32At data (off + 4), f32At data (off + 8)) := by
  simp [unpack_fff, h]

/-! ## Values of the binary32 constants used by the demo buffers -/

theorem decodeF32_zero : decodeF32 0 = 0 := by
  simp [decodeF32]

theorem decodeF32_ten : decodeF32 1092616192 = 10 := by
  norm_num [decodeF32]

theorem decodeF32_twenty : decodeF32 1101004800 = 20 := by
  norm_num [decodeF32]

theorem decodeF32_thirty : decodeF32 1106247680 = 30 := by
  norm_num [decodeF32]

/-! ## Evaluation of the decoders on the demo buffers -/

theorem demoQuadBuf_eval :
    parse_poly_commands demoQuadBuf 0 1 =
      .ok ([(3, 2, 1), (4, 3, 1)],
           [[(196/256, 197/256), (194/256, 195/256), (192/256, 193/256)],
            [(198/256, 199/256), (196/256, 197/256), (192/256, 193/256)]],
           [7, 7]) := by
  show parsePolyGo demoQuadBuf (0 + 1) 0 0 = _
  simp only [parsePolyGo,
             if_neg (by decide : ¬(demoQuadBuf.length ≤ 0)),
             byteAt_ok demoQuadBuf (0 + 1) (by decide),
             read_u16_ok demoQuadBuf (0 + 2) (by decide), read_u16_ok demoQuadBuf (0 + 4) (by decide),
             read_u16_ok demoQuadBuf (0 + 6) (by decide), read_u16_ok demoQuadBuf (0 + 8) (by decide),
             uvByte_ok demoQuadBuf (0 + 0x0C) (by decide), uvByte_ok demoQuadBuf (0 + 0x0D) (by decide),
             uvByte_ok demoQuadBuf (0 + 0x0E) (by decide), uvByte_ok demoQuadBuf (0 + 0x0F) (by decide),
             uvByte_ok demoQuadBuf (0 + 0x10) (by decide), uvByte_ok demoQuadBuf (0 + 0x11) (by decide),
             uvByte_ok demoQuadBuf (0 + 0x12) (by decide), uvByte_ok demoQuadBuf (0 + 0x13) (by decide)]
  simp only [Bind.bind, Except.bind]
  rw [show demoQuadBuf.getD 0 0 = 0x15 from by decide]
  rw [if_neg (by decide : ¬((0x15 : Nat) = 0x10)), if_neg (by decide : ¬((0x15 : Nat) = 0x12)),
      if_neg (by decide : ¬((0x15 : Nat) = 0x13)), if_neg (by decide : ¬((0x15 : Nat) = 0x14)),
      if_pos rfl]
  simp only [Pure.pure, Except.pure]
  norm_num [show demoQuadBuf[12]?.getD 0 = 192 from by decide,
            show demoQuadBuf[13]?.getD 0 = 193 from by decide,
            show demoQuadBuf[14]?.getD 0 = 194 from by decide,
            show demoQuadBuf[15]?.getD 0 = 195 from by decide,
            show demoQuadBuf[16]?.getD 0 = 196 from by decide,
            show demoQuadBuf[17]?.getD 0 = 197 from by decide,
            show demoQuadBuf[18]?.getD 0 = 198 from by decide,
            show demoQuadBuf[19]?.getD 0 = 199 from by decide,
            show demoQuadBuf[1]?.getD 0 = 7 from by decide,
            show leU16 demoQuadBuf 2 = 1 from by decide,
            show leU16 demoQuadBuf 4 = 2 from by decide,
            show leU16 demoQuadBuf 6 = 3 from by decide,
            show leU16 demoQuadBuf 8 = 4 from by decide]

theorem demoVertexBuf_eval : read_vertices demoVertexBuf 0 1 = .ok [(-1, -2, 3)] := by
  show readVerticesGo demoVertexBuf 0 (0 + 1) 0 = _
  simp only [readVerticesGo, unpack_fff_ok demoVertexBuf (0 + 0 * 12) (by decide)]
  simp only [Bind.bind, Except.bind, Pure.pure, Except.pure]
  norm_num [f32At, show leU32 demoVertexBuf 0 = 1092616192 from by decide,
            show leU32 demoVertexBuf 4 = 1101004800 from by decide,
            show leU32 demoVertexBuf 8 = 1106247680 from by decide,
            decodeF32_ten, decodeF32_twenty, decodeF32_thirty]

theorem demoNoValidation_verts : read_vertices demoNoValidation 0x30 1 = .ok [(0, 0, 0)] := by
  show readVerticesGo demoNoValidation 0x30 (0 + 1) 0 = _
  simp only [readVerticesGo, unpack_fff_ok demoNoValidation (0x30 + 0 * 12) (by decide)]
  simp only [Bind.bind, Except.bind, Pure.pure, Except.pure]
  norm_num [f32At, show leU32 demoNoValidation 48 = 0 from by decide,
            show leU32 demoNoValidation 52 = 0 from by decide,
            show leU32 demoNoValidation 56 = 0 from by decide,
            decodeF32_zero]

theorem demoNoValidation_eval :
    decode_dmodel demoNoValidation =
      .ok (⟨1, 1, 0, 0x30, 0, 0, 0x3C⟩, [(0, 0, 0)],
           ([(100, 200, 300)], [[(0, 0), (0, 0), (0, 0)]], [9])) := by
  have h1 : decode_header demoNoValidation = .ok ⟨1, 1, 0, 0x30, 0, 0, 0x3C⟩ := by decide
  have h3 : parse_poly_commands demoNoValidation 0x3C 1 =
      .ok ([(100, 200, 300)], [[(0, 0), (0, 0), (0, 0)]], [9]) := by decide
  simp [decode_dmodel, h1, demoNoValidation_verts, h3, Bind.bind, Except.bind,
        Pure.pure, Except.pure]

/-! ## Claim theorems -/

/-- **C5.** Header decoding fails with `TruncatedHeader` on every buffer
shorter than `0x30` bytes, regardless of content; on every buffer of at
least `0x30` bytes it succeeds, returning `vertex_count` read
little-endian as u16 at `0x14`, `poly_cmd_count` at `0x16`, `mesh_count`
at `0x1A`, and u32 offsets `vert_offset` at `0x20`, `plane_offset` at
`0x24`, `normal_offset` at `0x28`, `cmd_offset` at `0x2C`. -/
theorem decode_header_characterization (data : Bytes) :
    decode_header data =
      if data.length < 0x30 then .error .truncatedHeader
      else .ok ⟨leU16 data 0x14, leU16 data 0x16, leU16 data 0x1A,
                leU32 data 0x20, leU32 data 0x24, leU32 data 0x28, leU32 data 0x2C⟩ := by
  unfold decode_header
  split
  · rfl
  · rename_i h
    rw [read_u16_ok data 0x14 (by omega), read_u16_ok data 0x16 (by omega),
        read_u16_ok data 0x1A (by omega), read_u32_ok data 0x20 (by omega),
        read_u32_ok data 0x24 (by omega), read_u32_ok data 0x28 (by omega),
        read_u32_ok data 0x2C (by omega)]
    rfl

/-- **C10.** A zero requested count makes both decoders succeed with empty
output for every offset, even one past the end of the buffer: the vertex
decoder with `vertex_count = 0` returns `[]` regardless of `vert_offset`,
and the interpreter with `poly_cmd_count = 0` returns three empty
sequences regardless of `cmd_offset`, with no bounds error. -/
theorem zero_count_ok :
    ∀ (data : Bytes) (vo co : Nat),
      read_vertices data vo 0 = .ok [] ∧
        parse_poly_commands data co 0 = .ok ([], [], []) :=
  fun _ _ _ => ⟨rfl, rfl⟩

/-- **C2 (amended).** Before decoding each command the interpreter checks
`p < len(RawBuffer)` and fails with `CommandBufferOverrun` naming the
command index and the offset when the check fails.  (A last command whose
declared record length merely runs past the buffer end is *not* detected
by this check: see `overrun_check_counterexample`.) -/
theorem cursor_check_overrun (data : Bytes) (cnt p idx : Nat) (h : data.length ≤ p) :
    parsePolyGo data (cnt + 1) p idx = .error (.commandBufferOverrun idx p) := by
  simp [parsePolyGo, h]

/-- **C2 (counterexample).** A one-command buffer whose `0x13` command
declares record length `0x16` while the buffer holds only 2 bytes: the
declared length runs past the end, yet the interpreter succeeds instead of
failing with `CommandBufferOverrun`. -/
theorem overrun_check_counterexample :
    parse_poly_commands [0x13, 0] 0 1 = .ok ([], [], []) ∧
      ([0x13, 0] : Bytes).length < 0 + 0x16 :=
  ⟨by decide, by decide⟩

theorem cursor_check_overrun_witness :
    ([0x13, 0] : Bytes).length ≤ 0x16 ∧
      parsePolyGo [0x13, 0] 1 0x16 1 = .error (.commandBufferOverrun 1 0x16) :=
  ⟨by decide, cursor_check_overrun [0x13, 0] 0 0x16 1 (by decide)⟩

/-- **C7 (amended).** For every command whose opcode byte is not one of
`0x10, 0x12, 0x13, 0x14, 0x15, 0x16, 0x17`, provided the `mesh_id` byte at
`p + 1` is still inside the buffer, the interpreter fails with
`UnknownOpcode` naming the opcode value and the byte offset, and no
further commands are processed.  (When the unknown opcode is the very last
byte, the eager `mesh_id = data[p+1]` read fails first with an index
error: see `unknown_opcode_counterexample`.) -/
theorem unknown_opcode_fatal (data : Bytes) (cnt p idx : Nat)
    (hp : p + 1 < data.length)
    (hop : data.getD p 0 ∉ ([0x10, 0x12, 0x13, 0x14, 0x15, 0x16, 0x17] : List Nat)) :
    parsePolyGo data (cnt + 1) p idx = .error (.unknownOpcode (data.getD p 0) p) := by
  simp only [List.mem_cons, List.not_mem_nil, or_false, not_or] at hop
  obtain ⟨h10, h12, h13, h14, h15, h16, h17⟩ := hop
  have hlt : ¬ data.length ≤ p := by omega
  simp only [parsePolyGo, if_neg hlt, byteAt_ok data (p + 1) hp]
  simp only [Bind.bind, Except.bind]
  rw [if_neg h10, if_neg h12, if_neg h13, if_neg h14, if_neg h15, if_neg h16, if_neg h17]

/-- **C7 (counterexample).** A buffer holding the single byte `0xFF`: the
claim predicts `UnknownOpcode` naming `0xFF` at offset 0, but the eager
`mesh_id = data[p+1]` read fails first with an `IndexError` at offset 1. -/
theorem unknown_opcode_counterexample :
    parse_poly_commands [0xFF] 0 1 = .error (.indexError 1) ∧
      (Except.error (.indexError 1) : Except DecodeErr PolyData) ≠
        .error (.unknownOpcode 0xFF 0) :=
  ⟨by decide, by decide⟩

theorem unknown_opcode_fatal_witness :
    parsePolyGo [0xFF, 0] 1 0 0 = .error (.unknownOpcode 0xFF 0) :=
  unknown_opcode_fatal [0xFF, 0] 0 0 0 (by decide) (by decide)

/-- **C1 (counterexample).** Decoding `demoQuadBuf` (one `0x15` command
whose eight UV bytes at `0x0C..0x13` are the distinct values `192..199`):
the interpreter's UV triples take tri0's corners from offsets
`0x10, 0x0E, 0x0C` and tri1's from `0x12, 0x10, 0x0C`, which differs from
the claim's prediction obtained by labelling the pairs at `0x0C..0x13` as
`A, B, C, D` in file order and assigning `(A, B, C)` / `(D, A, C)`. -/
theorem op15_uv_order_counterexample :
    parse_poly_commands demoQuadBuf 0 1 =
      .ok ([(3, 2, 1), (4, 3, 1)],
           [[(196/256, 197/256), (194/256, 195/256), (192/256, 193/256)],
            [(198/256, 199/256), (196/256, 197/256), (192/256, 193/256)]],
           [7, 7]) ∧
      ([[((196 : ℚ)/256, (197 : ℚ)/256), (194/256, 195/256), (192/256, 193/256)],
        [(198/256, 199/256), (196/256, 197/256), (192/256, 193/256)]] : List (List UV)) ≠
        [[(192/256, 193/256), (194/256, 195/256), (196/256, 197/256)],
         [(198/256, 199/256), (192/256, 193/256), (196/256, 197/256)]] :=
  ⟨demoQuadBuf_eval, by norm_num⟩

/-- **C1 (amended).** For every `0x15` command at cursor `p`, the
interpreter reads u16 indices `a,b,c,d` at `p+2,p+4,p+6,p+8`, emits
exactly two triangles `tri0 = (c,b,a)` then `tri1 = (d,c,a)`, both tagged
with the `mesh_id` byte at `p+1`; the four UV byte pairs at
`p+0x0C..p+0x13` are the corner UVs for `C, B, A, D` in that order, tri0's
corners get `(A, B, C)` in order and tri1's corners get `(D, A, C)` in
order, and the cursor advances by `0x18`. -/
theorem op15_step_characterization (data : Bytes) (cnt p idx : Nat)
    (hb : p + 0x14 ≤ data.length) (hop : data.getD p 0 = 0x15) :
    parsePolyGo data (cnt + 1) p idx =
      Except.map (fun rest =>
        ((leU16 data (p + 6), leU16 data (p + 4), leU16 data (p + 2)) ::
           (leU16 data (p + 8), leU16 data (p + 6), leU16 data (p + 2)) :: rest.1,
         ([((data.getD (p + 0x10) 0 : ℚ) / 256, (data.getD (p + 0x11) 0 : ℚ) / 256),
           ((data.getD (p + 0x0E) 0 : ℚ) / 256, (data.getD (p + 0x0F) 0 : ℚ) / 256),
           ((data.getD (p + 0x0C) 0 : ℚ) / 256, (data.getD (p + 0x0D) 0 : ℚ) / 256)] : List UV) ::
           ([((data.getD (p + 0x12) 0 : ℚ) / 256, (data.getD (p + 0x13) 0 : ℚ) / 256),
             ((data.getD (p + 0x10) 0 : ℚ) / 256, (data.getD (p + 0x11) 0 : ℚ) / 256),
             ((data.getD (p + 0x0C) 0 : ℚ) / 256, (data.getD (p + 0x0D) 0 : ℚ) / 256)] : List UV) :: rest.2.1,
         data.getD (p + 1) 0 :: data.getD (p + 1) 0 :: rest.2.2))
        (parsePolyGo data cnt (p + 0x18) (idx + 1)) := by
  have hlt : ¬ data.length ≤ p := by omega
  simp only [parsePolyGo, if_neg hlt, byteAt_ok data (p + 1) (by omega),
             read_u16_ok data (p + 2) (by omega), read_u16_ok data (p + 4) (by omega),
             read_u16_ok data (p + 6) (by omega), read_u16_ok data (p + 8) (by omega),
             uvByte_ok data (p + 0x0C) (by omega), uvByte_ok data (p + 0x0D) (by omega),
             uvByte_ok data (p + 0x0E) (by omega), uvByte_ok data (p + 0x0F) (by omega),
             uvByte_ok data (p + 0x10) (by omega), uvByte_ok data (p + 0x11) (by omega),
             uvByte_ok data (p + 0x12) (by omega), uvByte_ok data (p + 0x13) (by omega)]
  simp only [Bind.bind, Except.bind]
  rw [hop]
  rw [if_neg (by decide : ¬((0x15 : Nat) = 0x10)), if_neg (by decide : ¬((0x15 : Nat) = 0x12)),
      if_neg (by decide : ¬((0x15 : Nat) = 0x13)), if_neg (by decide : ¬((0x15 : Nat) = 0x14)),
      if_pos rfl]
  cases hrec : parsePolyGo data cnt (p + 0x18) (idx + 1) with
  | error e => simp [hrec, Except.map, Bind.bind, Except.bind]
  | ok rest =>
      obtain ⟨ts, us, ms⟩ := rest
      simp [hrec, Except.map, Bind.bind, Except.bind, Pure.pure, Except.pure]

theorem op15_step_characterization_witness :
    parsePolyGo demoQuadBuf 1 0 0 =
      .ok ([(3, 2, 1), (4, 3, 1)],
           [[(196/256, 197/256), (194/256, 195/256), (192/256, 193/256)],
            [(198/256, 199/256), (196/256, 197/256), (192/256, 193/256)]],
           [7, 7]) := by
  have h := op15_step_characterization demoQuadBuf 0 0 0 (by decide) (by decide)
  refine h.trans ?_
  simp only [parsePolyGo, Except.map]
  norm_num [show demoQuadBuf[12]?.getD 0 = 192 from by decide,
            show demoQuadBuf[13]?.getD 0 = 193 from by decide,
            show demoQuadBuf[14]?.getD 0 = 194 from by decide,
            show demoQuadBuf[15]?.getD 0 = 195 from by decide,
            show demoQuadBuf[16]?.getD 0 = 196 from by decide,
            show demoQuadBuf[17]?.getD 0 = 197 from by decide,
            show demoQuadBuf[18]?.getD 0 = 198 from by decide,
            show demoQuadBuf[19]?.getD 0 = 199 from by decide,
            show demoQuadBuf[1]?.getD 0 = 7 from by decide,
            show leU16 demoQuadBuf 2 = 1 from by decide,
            show leU16 demoQuadBuf 4 = 2 from by decide,
            show leU16 demoQuadBuf 6 = 3 from by decide,
            show leU16 demoQuadBuf 8 = 4 from by decide]

/-- **C4.** For every `0x14` command at cursor `p`, the interpreter reads
u16 indices `a,b,c` at `p+2,p+4,p+6`, emits one triangle `(c,b,a)` tagged
with the `mesh_id` byte at `p+1`, reads three UV byte pairs at
`p+0x0A..p+0x0F` mapped as corner0 ↤ bytes `(p+0x0E, p+0x0F)/256`,
corner1 ↤ `(p+0x0C, p+0x0D)/256`, corner2 ↤ `(p+0x0A, p+0x0B)/256`, and
advances the cursor by `0x14`.  The witness checks the spec's worked
example: indices `(1,2,3)` with UV bytes `128,64` at `0x0A/0x0B`, `0,0` at
`0x0C/0x0D`, `255,255` at `0x0E/0x0F` yield triangle `(3,2,1)` and
UV corners `[(255/256, 255/256), (0, 0), (1/2, 1/4)]`. -/
theorem op14_step_characterization (data : Bytes) (cnt p idx : Nat)
    (hb : p + 0x10 ≤ data.length) (hop : data.getD p 0 = 0x14) :
    parsePolyGo data (cnt + 1) p idx =
      Except.map (fun rest =>
        ((leU16 data (p + 6), leU16 data (p + 4), leU16 data (p + 2)) :: rest.1,
         ([((data.getD (p + 0x0E) 0 : ℚ) / 256, (data.getD (p + 0x0F) 0 : ℚ) / 256),
           ((data.getD (p + 0x0C) 0 : ℚ) / 256, (data.getD (p + 0x0D) 0 : ℚ) / 256),
           ((data.getD (p + 0x0A) 0 : ℚ) / 256, (data.getD (p + 0x0B) 0 : ℚ) / 256)] : List UV) :: rest.2.1,
         data.getD (p + 1) 0 :: rest.2.2))
        (parsePolyGo data cnt (p + 0x14) (idx + 1)) := by
  have hlt : ¬ data.length ≤ p := by omega
  simp only [parsePolyGo, if_neg hlt, byteAt_ok data (p + 1) (by omega),
             read_u16_ok data (p + 2) (by omega), read_u16_ok data (p + 4) (by omega),
             read_u16_ok data (p + 6) (by omega),
             uvByte_ok data (p + 0x0A) (by omega), uvByte_ok data (p + 0x0B) (by omega),
             uvByte_ok data (p + 0x0C) (by omega), uvByte_ok data (p + 0x0D) (by omega),
             uvByte_ok data (p + 0x0E) (by omega), uvByte_ok data (p + 0x0F) (by omega)]
  simp only [Bind.bind, Except.bind]
  rw [hop]
  rw [if_neg (by decide : ¬((0x14 : Nat) = 0x10)), if_neg (by decide : ¬((0x14 : Nat) = 0x12)),
      if_neg (by decide : ¬((0x14 : Nat) = 0x13)), if_pos rfl]
  cases hrec : parsePolyGo data cnt (p + 0x14) (idx + 1) with
  | error e => simp [hrec, Except.map, Bind.bind, Except.bind]
  | ok rest =>
      obtain ⟨ts, us, ms⟩ := rest
      simp [hrec, Except.map, Bind.bind, Except.bind, Pure.pure, Except.pure]

theorem op14_step_characterization_witness :
    parsePolyGo demoTriBuf 1 0 0 =
      .ok ([(3, 2, 1)], [[(255/256, 255/256), (0, 0), (1/2, 1/4)]], [5]) := by
  have h := op14_step_characterization demoTriBuf 0 0 0 (by decide) (by decide)
  refine h.trans ?_
  simp only [parsePolyGo, Except.map]
  norm_num [show demoTriBuf[14]?.getD 0 = 255 from by decide,
            show demoTriBuf[15]?.getD 0 = 255 from by decide,
            show demoTriBuf[12]?.getD 0 = 0 from by decide,
            show demoTriBuf[13]?.getD 0 = 0 from by decide,
            show demoTriBuf[10]?.getD 0 = 128 from by decide,
            show demoTriBuf[11]?.getD 0 = 64 from by decide,
            show demoTriBuf[1]?.getD 0 = 5 from by decide,
            show leU16 demoTriBuf 6 = 3 from by decide,
            show leU16 demoTriBuf 4 = 2 from by decide,
            show leU16 demoTriBuf 2 = 1 from by decide]

/-- Step characterization for `0x10` (raw indices, unchanged order). -/
theorem op10_step (data : Bytes) (cnt p idx : Nat)
    (hb : p + 8 ≤ data.length) (hop : data.getD p 0 = 0x10) :
    parsePolyGo data (cnt + 1) p idx =
      Except.map (fun rest =>
        ((leU16 data (p + 2), leU16 data (p + 4), leU16 data (p + 6)) :: rest.1,
         ([(0, 0), (0, 0), (0, 0)] : List UV) :: rest.2.1,
         data.getD (p + 1) 0 :: rest.2.2))
        (parsePolyGo data cnt (p + 0x10) (idx + 1)) := by
  have hlt : ¬ data.length ≤ p := by omega
  simp only [parsePolyGo, if_neg hlt, byteAt_ok data (p + 1) (by omega),
             unpack_HHH_ok data (p + 2) (by omega)]
  simp only [Bind.bind, Except.bind]
  rw [hop, if_pos rfl]
  cases hrec : parsePolyGo data cnt (p + 0x10) (idx + 1) with
  | error e => simp [hrec, Except.map, Bind.bind, Except.bind]
  | ok rest =>
      obtain ⟨ts, us, ms⟩ := rest
      simp [hrec, Except.map, Bind.bind, Except.bind, Pure.pure, Except.pure]

/-- Step characterization for `0x12` (reordered indices `(c,b,a)`). -/
theorem op12_step (data : Bytes) (cnt p idx : Nat)
    (hb : p + 8 ≤ data.length) (hop : data.getD p 0 = 0x12) :
    parsePolyGo data (cnt + 1) p idx =
      Except.map (fun rest =>
        ((leU16 data (p + 6), leU16 data (p + 4), leU16 data (p + 2)) :: rest.1,
         ([(0, 0), (0, 0), (0, 0)] : List UV) :: rest.2.1,
         data.getD (p + 1) 0 :: rest.2.2))
        (parsePolyGo data cnt (p + 0x14) (idx + 1)) := by
  have hlt : ¬ data.length ≤ p := by omega
  simp only [parsePolyGo, if_neg hlt, byteAt_ok data (p + 1) (by omega),
             read_u16_ok data (p + 2) (by omega), read_u16_ok data (p + 4) (by omega),
             read_u16_ok data (p + 6) (by omega)]
  simp only [Bind.bind, Except.bind]
  rw [hop]
  rw [if_neg (by decide : ¬((0x12 : Nat) = 0x10)), if_pos rfl]
  cases hrec : parsePolyGo data cnt (p + 0x14) (idx + 1) with
  | error e => simp [hrec, Except.map, Bind.bind, Except.bind]
  | ok rest =>
      obtain ⟨ts, us, ms⟩ := rest
      simp [hrec, Except.map, Bind.bind, Except.bind, Pure.pure, Except.pure]

/-- **C9.** Emitted triangle indices are exactly the raw little-endian u16
values read from the command record, after the per-opcode reordering
(`0x10` keeps `(a,b,c)`, `0x12` reorders to `(c,b,a)`), and they are never
validated against `vertex_count`: the full pipeline succeeds on
`demoNoValidation`, whose header declares `vertex_count = 1` while its one
`0x10` command emits indices `100, 200, 300`, all ≥ `vertex_count`. -/
theorem raw_indices_no_validation :
    (∀ (data : Bytes) (cnt p idx : Nat), p + 8 ≤ data.length → data.getD p 0 = 0x10 →
      parsePolyGo data (cnt + 1) p idx =
        Except.map (fun rest =>
          ((leU16 data (p + 2), leU16 data (p + 4), leU16 data (p + 6)) :: rest.1,
           ([(0, 0), (0, 0), (0, 0)] : List UV) :: rest.2.1,
           data.getD (p + 1) 0 :: rest.2.2))
          (parsePolyGo data cnt (p + 0x10) (idx + 1))) ∧
    (∀ (data : Bytes) (cnt p idx : Nat), p + 8 ≤ data.length → data.getD p 0 = 0x12 →
      parsePolyGo data (cnt + 1) p idx =
        Except.map (fun rest =>
          ((leU16 data (p + 6), leU16 data (p + 4), leU16 data (p + 2)) :: rest.1,
           ([(0, 0), (0, 0), (0, 0)] : List UV) :: rest.2.1,
           data.getD (p + 1) 0 :: rest.2.2))
          (parsePolyGo data cnt (p + 0x14) (idx + 1))) ∧
    (decode_dmodel demoNoValidation =
        .ok (⟨1, 1, 0, 0x30, 0, 0, 0x3C⟩, [(0, 0, 0)],
             ([(100, 200, 300)], [[(0, 0), (0, 0), (0, 0)]], [9])) ∧
      ∀ i ∈ ([100, 200, 300] : List Nat),
        (⟨1, 1, 0, 0x30, 0, 0, 0x3C⟩ : Header).vertex_count ≤ i) :=
  ⟨op10_step, op12_step, demoNoValidation_eval, by decide⟩

theorem raw_indices_no_validation_witness :
    parsePolyGo demoNoValidation 1 0x3C 0 =
      .ok ([(100, 200, 300)], [[(0, 0), (0, 0), (0, 0)]], [9]) :=
  (raw_indices_no_validation.1 demoNoValidation 0 0x3C 0 (by decide) (by decide)).trans (by decide)

/-- How a successful run of the vertex-decoder loop relates to the raw
buffer: each output entry is the transformed float3 at its record offset. -/
theorem readVerticesGo_ok (data : Bytes) (base : Nat) :
    ∀ (k i : Nat) (vs : List (ℚ × ℚ × ℚ)),
      readVerticesGo data base k i = .ok vs →
      vs = (List.range k).map fun j => vertexAt data (base + (i + j) * 12) := by
  intro k
  induction k with
  | zero =>
      intro i vs h
      simp only [readVerticesGo] at h
      injection h with h
      subst h
      simp
  | succ n ih =>
      intro i vs h
      simp only [readVerticesGo] at h
      obtain ⟨xyz, hx, h⟩ := bind_eq_ok h
      obtain ⟨rest, hrec, h⟩ := bind_eq_ok h
      injection h with h
      subst h
      rw [unpack_fff] at hx
      split at hx
      · injection hx with hx
        subst hx
        rw [ih (i + 1) rest hrec]
        rw [List.range_succ_eq_map, List.map_cons, List.map_map]
        refine congrArg₂ _ ?_ ?_
        · simp [vertexAt]
        · refine List.map_congr_left ?_
          intro j hj
          simp only [Function.comp]
          congr 2
          omega
      · exact absurd hx (by simp)

/-- **C6.** For every `i` in `0 .. vertex_count`, the vertex decoder reads
three little-endian 32-bit floats `(x, y, z)` at byte offset
`vert_offset + i*12` and appends the transformed vertex
`(-x/10, -y/10, z/10)`, preserving input order.  The witness checks the
spec's worked example: the raw record `(10.0, 20.0, 30.0)` yields the
vertex `(-1, -2, 3)`. -/
theorem read_vertices_ok_characterization (data : Bytes) (vert_offset vertex_count : Nat)
    (vs : List (ℚ × ℚ × ℚ)) (h : read_vertices data vert_offset vertex_count = .ok vs) :
    vs = (List.range vertex_count).map fun i => vertexAt data (vert_offset + i * 12) := by
  have hgo := readVerticesGo_ok data vert_offset vertex_count 0 vs h
  simpa using hgo

theorem read_vertices_ok_witness :
    [((-1 : ℚ), (-2 : ℚ), (3 : ℚ))] =
      (List.range 1).map fun i => vertexAt demoVertexBuf (0 + i * 12) :=
  read_vertices_ok_characterization demoVertexBuf 0 1 [(-1, -2, 3)] demoVertexBuf_eval

/-- When some record of the vertex-decoder loop would read past the end of
the buffer, the loop stops at the first such record with the bounds error
of its `struct.unpack_from`. -/
theorem readVerticesGo_err (data : Bytes) (base : Nat) :
    ∀ (k i : Nat), (∃ j, j < k ∧ data.length < base + (i + j) * 12 + 12) →
      ∃ j, j < k ∧ data.length < base + (i + j) * 12 + 12 ∧
        readVerticesGo data base k i = .error (.structError (base + (i + j) * 12) 12) := by
  intro k
  induction k with
  | zero =>
      intro i h
      obtain ⟨j, hj, _⟩ := h
      omega
  | succ n ih =>
      intro i h
      by_cases hc : data.length < base + i * 12 + 12
      · refine ⟨0, by omega, by omega, ?_⟩
        have hu : unpack_fff data (base + i * 12) = .error (.structError (base + i * 12) 12) := by
          rw [unpack_fff, if_neg (by omega)]
        simp only [readVerticesGo, hu, Bind.bind, Except.bind]
        have he : base + (i + 0) * 12 = base + i * 12 := by omega
        rw [he]
      · obtain ⟨j, hj, hlen⟩ := h
        have hj0 : j ≠ 0 := by
          intro h0
          subst h0
          omega
        obtain ⟨m, rfl⟩ : ∃ m, j = m + 1 := ⟨j - 1, by omega⟩
        obtain ⟨j2, hj2, hlen2, hgo⟩ := ih (i + 1) ⟨m, by omega, by omega⟩
        refine ⟨j2 + 1, by omega, by omega, ?_⟩
        have hx := unpack_fff_ok data (base + i * 12) (by omega)
        simp only [readVerticesGo, hx, Bind.bind, Except.bind, hgo]
        have he : base + (i + 1 + j2) * 12 = base + (i + (j2 + 1)) * 12 := by omega
        rw [he]

/-- **C8.** For every `vert_offset` and `vertex_count` such that some
vertex read at `vert_offset + i*12` (`i < vertex_count`) would extend past
the end of the buffer, the vertex decoder fails with the range-overrun
error of the failing read (the `struct.error` raised by
`struct.unpack_from`, which is how the code realizes `VertexRangeOverrun`)
rather than reading out of bounds, regardless of what the header's
offset/count fields claimed. -/
theorem vertex_overrun_fails (data : Bytes) (vert_offset vertex_count : Nat)
    (h : ∃ i, i < vertex_count ∧ data.length < vert_offset + i * 12 + 12) :
    ∃ k, k < vertex_count ∧ data.length < vert_offset + k * 12 + 12 ∧
      read_vertices data vert_offset vertex_count =
        .error (.structError (vert_offset + k * 12) 12) := by
  obtain ⟨i, hi, hlen⟩ := h
  obtain ⟨j, hj, hlen2, hgo⟩ :=
    readVerticesGo_err data vert_offset vertex_count 0 ⟨i, hi, by omega⟩
  exact ⟨j, hj, by omega, by simpa using hgo⟩

theorem vertex_overrun_fails_witness :
    ∃ k, k < 1 ∧ ([] : Bytes).length < 0 + k * 12 + 12 ∧
      read_vertices [] 0 1 = .error (.structError (0 + k * 12) 12) :=
  vertex_overrun_fails [] 0 1 ⟨0, by decide, by decide⟩

/-- A successful run of the interpreter loop always returns three lists of
equal length: every branch appends to the three outputs in lockstep. -/
theorem parsePolyGo_len (data : Bytes) :
    ∀ (cnt p idx : Nat) (out : PolyData), parsePolyGo data cnt p idx = .ok out →
      out.1.length = out.2.1.length ∧ out.2.1.length = out.2.2.length := by
  intro cnt
  induction cnt with
  | zero =>
      intro p idx out h
      simp only [parsePolyGo] at h
      injection h with h
      subst h
      exact ⟨rfl, rfl⟩
  | succ n ih =>
      intro p idx out h
      simp only [parsePolyGo] at h
      by_cases hp : data.length ≤ p
      · rw [if_pos hp] at h
        exact absurd h (by simp)
      · rw [if_neg hp] at h
        obtain ⟨mesh, hm, h⟩ := bind_eq_ok h
        by_cases h10 : data.getD p 0 = 0x10
        · rw [if_pos h10] at h
          obtain ⟨ijk, h1, h⟩ := bind_eq_ok h
          obtain ⟨rest, hrec, h⟩ := bind_eq_ok h
          injection h with h
          subst h
          obtain ⟨l1, l2⟩ := ih _ _ _ hrec
          exact ⟨by simp [l1], by simp [l2]⟩
        · rw [if_neg h10] at h
          by_cases h12 : data.getD p 0 = 0x12
          · rw [if_pos h12] at h
            obtain ⟨a, h1, h⟩ := bind_eq_ok h
            obtain ⟨b, h2, h⟩ := bind_eq_ok h
            obtain ⟨c, h3, h⟩ := bind_eq_ok h
            obtain ⟨rest, hrec, h⟩ := bind_eq_ok h
            injection h with h
            subst h
            obtain ⟨l1, l2⟩ := ih _ _ _ hrec
            exact ⟨by simp [l1], by simp [l2]⟩
          · rw [if_neg h12] at h
            by_cases h13 : data.getD p 0 = 0x13
            · rw [if_pos h13] at h
              exact ih _ _ _ h
            · rw [if_neg h13] at h
              by_cases h14 : data.getD p 0 = 0x14
              · rw [if_pos h14] at h
                obtain ⟨a, h1, h⟩ := bind_eq_ok h
                obtain ⟨b, h2, h⟩ := bind_eq_ok h
                obtain ⟨c, h3, h⟩ := bind_eq_ok h
                obtain ⟨u2, h4, h⟩ := bind_eq_ok h
                obtain ⟨v2, h5, h⟩ := bind_eq_ok h
                obtain ⟨u1, h6, h⟩ := bind_eq_ok h
                obtain ⟨v1, h7, h⟩ := bind_eq_ok h
                obtain ⟨u0, h8, h⟩ := bind_eq_ok h
                obtain ⟨v0, h9, h⟩ := bind_eq_ok h
                obtain ⟨rest, hrec, h⟩ := bind_eq_ok h
                injection h with h
                subst h
                obtain ⟨l1, l2⟩ := ih _ _ _ hrec
                exact ⟨by simp [l1], by simp [l2]⟩
              · rw [if_neg h14] at h
                by_cases h15 : data.getD p 0 = 0x15
                · rw [if_pos h15] at h
                  obtain ⟨a, h1, h⟩ := bind_eq_ok h
                  obtain ⟨b, h2, h⟩ := bind_eq_ok h
                  obtain ⟨c, h3, h⟩ := bind_eq_ok h
                  obtain ⟨d, h4, h⟩ := bind_eq_ok h
                  obtain ⟨uC, h5, h⟩ := bind_eq_ok h
                  obtain ⟨vC, h6, h⟩ := bind_eq_ok h
                  obtain ⟨uB, h7, h⟩ := bind_eq_ok h
                  obtain ⟨vB, h8, h⟩ := bind_eq_ok h
                  obtain ⟨uA, h9, h⟩ := bind_eq_ok h
                  obtain ⟨vA, hA, h⟩ := bind_eq_ok h
                  obtain ⟨uD, hB, h⟩ := bind_eq_ok h
                  obtain ⟨vD, hC, h⟩ := bind_eq_ok h
                  obtain ⟨rest, hrec, h⟩ := bind_eq_ok h
                  injection h with h
                  subst h
                  obtain ⟨l1, l2⟩ := ih _ _ _ hrec
                  exact ⟨by simp [l1], by simp [l2]⟩
                · rw [if_neg h15] at h
                  by_cases h16 : data.getD p 0 = 0x16
                  · rw [if_pos h16] at h
                    obtain ⟨a, h1, h⟩ := bind_eq_ok h
                    obtain ⟨b, h2, h⟩ := bind_eq_ok h
                    obtain ⟨c, h3, h⟩ := bind_eq_ok h
                    obtain ⟨u2, h4, h⟩ := bind_eq_ok h
                    obtain ⟨v2, h5, h⟩ := bind_eq_ok h
                    obtain ⟨u1, h6, h⟩ := bind_eq_ok h
                    obtain ⟨v1, h7, h⟩ := bind_eq_ok h
                    obtain ⟨u0, h8, h⟩ := bind_eq_ok h
                    obtain ⟨v0, h9, h⟩ := bind_eq_ok h
                    obtain ⟨rest, hrec, h⟩ := bind_eq_ok h
                    injection h with h
                    subst h
                    obtain ⟨l1, l2⟩ := ih _ _ _ hrec
                    exact ⟨by simp [l1], by simp [l2]⟩
                  · rw [if_neg h16] at h
                    by_cases h17 : data.getD p 0 = 0x17
                    · rw [if_pos h17] at h
                      obtain ⟨a, h1, h⟩ := bind_eq_ok h
                      obtain ⟨b, h2, h⟩ := bind_eq_ok h
                      obtain ⟨c, h3, h⟩ := bind_eq_ok h
                      obtain ⟨d, h4, h⟩ := bind_eq_ok h
                      obtain ⟨uC, h5, h⟩ := bind_eq_ok h
                      obtain ⟨vC, h6, h⟩ := bind_eq_ok h
                      obtain ⟨uB, h7, h⟩ := bind_eq_ok h
                      obtain ⟨vB, h8, h⟩ := bind_eq_ok h
                      obtain ⟨uA, h9, h⟩ := bind_eq_ok h
                      obtain ⟨vA, hA, h⟩ := bind_eq_ok h
                      obtain ⟨uD, hB, h⟩ := bind_eq_ok h
                      obtain ⟨vD, hC, h⟩ := bind_eq_ok h
                      obtain ⟨rest, hrec, h⟩ := bind_eq_ok h
                      injection h with h
                      subst h
                      obtain ⟨l1, l2⟩ := ih _ _ _ hrec
                      exact ⟨by simp [l1], by simp [l2]⟩
                    · rw [if_neg h17] at h
                      exact absurd h (by simp)

/-- **C3.** For every input on which the command stream interpreter
succeeds, the three returned sequences — triangles, UV-corner triples,
surface ids — have equal length; each command appends to all three in
lockstep, so the same index `k` across the three sequences refers to the
same triangle. -/
theorem parallel_lengths (data : Bytes) (cmd_offset poly_cmd_count : Nat) (out : PolyData)
    (h : parse_poly_commands data cmd_offset poly_cmd_count = .ok out) :
    out.1.length = out.2.1.length ∧ out.2.1.length = out.2.2.length :=
  parsePolyGo_len data poly_cmd_count cmd_offset 0 out h

theorem parallel_lengths_witness :
    (([], [], []) : PolyData).1.length = (([], [], []) : PolyData).2.1.length ∧
      (([], [], []) : PolyData).2.1.length = (([], [], []) : PolyData).2.2.length :=
  parallel_lengths [0x13, 0] 0 1 ([], [], []) (by decide)
